import Mathlib

/-!
Shallow embedding of the pibiT box-office seat-reservation engine
(`src/boxoffice`): the data model (`models.py`), the serializers
(`serializers.py`), the hold/booking views (`views.py`) and the delayed
expiry task (`tasks.py`), together with theorems about the engine's
invariants, error behaviour and races.

Timestamps, ids and tokens are modelled as `Nat`; the committed database
state is an explicit record of rows.  Each Lean definition mirrors one
source function and keeps its name where Lean allows it.
-/

namespace Boxoffice

/-- Hold status (`models.py`, `Hold.Status`): ACTIVE, EXPIRED or BOOKED. -/
inductive Status where
  | ACTIVE
  | EXPIRED
  | BOOKED
deriving DecidableEq, Repr

/-- A row of the `holds` table (`models.py`, class `Hold`). -/
structure Hold where
  id : Nat
  eventId : Nat
  qty : Nat
  expiresAt : Nat
  paymentToken : Nat
  status : Status
deriving DecidableEq, Repr

/-- A row of the `bookings` table (`models.py`, class `Booking`):
one-to-one with its hold, carrying a generated booking reference. -/
structure Booking where
  holdId : Nat
  bookingId : Nat
deriving DecidableEq, Repr

/-- A row of the `events` table (`models.py`, class `Event`). -/
structure Event where
  id : Nat
  totalSeats : Nat
deriving DecidableEq, Repr

/-- A row of the `metrics` table (`models.py`, class `Metrics`):
per-event derived counters. -/
structure MetricsRow where
  eventId : Nat
  total_holds : Nat
  total_bookings : Nat
  total_expiries : Nat
  total_held_seats : Nat
  total_booked_seats : Nat
  total_expired_seats : Nat
deriving DecidableEq, Repr

/-- The committed relational state: all rows of the four tables. -/
structure DB where
  events : List Event
  holds : List Hold
  bookings : List Booking
  metrics : List MetricsRow
deriving DecidableEq, Repr

/-- Django `aggregate(total=Sum(qty))`: `none` on an empty queryset,
the sum of `qty` otherwise. -/
def aggSumQty : List Hold → Option Nat
  | [] => none
  | hs => some ((hs.map Hold.qty).sum)

/-- The `or 0` applied to every aggregate result in the source. -/
def orZero (o : Option Nat) : Nat := o.getD 0

/-- `event.holds`: the holds owned by the event with id `eid`. -/
def DB.eventHolds (db : DB) (eid : Nat) : List Hold :=
  db.holds.filter (fun h => h.eventId == eid)

/-- `hasattr(hold, 'booking')`: whether a Booking row exists for hold
`hid`. -/
def hasBooking (db : DB) (hid : Nat) : Bool :=
  db.bookings.any (fun b => b.holdId == hid)

/-- `Hold.objects.get(id=hid)` as a fallible lookup by primary key. -/
def findHold (db : DB) (hid : Nat) : Option Hold :=
  db.holds.find? (fun h => h.id == hid)

/-- `Event.objects.get(id=eid)` as a fallible lookup by primary key. -/
def findEvent (db : DB) (eid : Nat) : Option Event :=
  db.events.find? (fun e => e.id == eid)

/-- `Event.held_seats` (`models.py` line 39): sum of qty over the
event's ACTIVE holds, via aggregate-or-0. -/
def held_seats (db : DB) (eid : Nat) : Nat :=
  orZero (aggSumQty ((db.eventHolds eid).filter (fun h => h.status == Status.ACTIVE)))

/-- `Event.booked_seats` (`models.py` line 46): sum of qty over the
event's holds that have a Booking row (`booking__isnull=False`). -/
def booked_seats (db : DB) (eid : Nat) : Nat :=
  orZero (aggSumQty ((db.eventHolds eid).filter (fun h => hasBooking db h.id)))

/-- `Event.available_seats` (`models.py` line 28):
`max(0, total_seats - held_seats - booked_seats)` in integer
arithmetic. -/
def available_seats (db : DB) (ev : Event) : Int :=
  max 0 ((ev.totalSeats : Int) - held_seats db ev.id - booked_seats db ev.id)

/-- `Hold.is_expired` (`models.py` line 88): `timezone.now() > expires_at`,
with the current time passed explicitly. -/
def Hold.is_expired (h : Hold) (now : Nat) : Bool :=
  now > h.expiresAt

/-- The row-level effect of `hold.save(update_fields=['status', ...])`
on one row: overwrite the status when the primary key matches. -/
def updStatus (hid : Nat) (st : Status) (h : Hold) : Hold :=
  if h.id == hid then { h with status := st } else h

/-- `hold.save(update_fields=['status', ...])`: write the status of the
row with primary key `hid`. -/
def DB.saveHoldStatus (db : DB) (hid : Nat) (st : Status) : DB :=
  { db with holds := db.holds.map (updStatus hid st) }

/-- `Hold.expire` (`models.py` line 92): flip ACTIVE to EXPIRED,
otherwise leave the row alone. -/
def Hold.expire (h : Hold) : Hold :=
  if h.status = Status.ACTIVE then { h with status := Status.EXPIRED } else h

/-- The count/sum recomputations of `Metrics.update_metrics`
(`models.py` lines 151-173): number of holds of the event. -/
def countHolds (db : DB) (eid : Nat) : Nat :=
  (db.eventHolds eid).length

/-- `update_metrics`: number of the event's holds with a Booking row. -/
def countBookings (db : DB) (eid : Nat) : Nat :=
  ((db.eventHolds eid).filter (fun h => hasBooking db h.id)).length

/-- `update_metrics`: number of the event's EXPIRED holds. -/
def countExpiries (db : DB) (eid : Nat) : Nat :=
  ((db.eventHolds eid).filter (fun h => h.status == Status.EXPIRED)).length

/-- `update_metrics`: summed qty of the event's EXPIRED holds. -/
def expired_seats (db : DB) (eid : Nat) : Nat :=
  orZero (aggSumQty ((db.eventHolds eid).filter (fun h => h.status == Status.EXPIRED)))

/-- `Metrics.update_metrics` (`models.py` line 151): the fresh counter
row recomputed from the authoritative Hold/Booking rows. -/
def update_metrics (db : DB) (eid : Nat) : MetricsRow :=
  { eventId := eid
    total_holds := countHolds db eid
    total_bookings := countBookings db eid
    total_expiries := countExpiries db eid
    total_held_seats := held_seats db eid
    total_booked_seats := booked_seats db eid
    total_expired_seats := expired_seats db eid }

/-- `metrics.save(...)`: upsert the per-event metrics row. -/
def DB.saveMetrics (db : DB) (m : MetricsRow) : DB :=
  if db.metrics.any (fun r => r.eventId == m.eventId) then
    { db with metrics := db.metrics.map (fun r => if r.eventId == m.eventId then m else r) }
  else
    { db with metrics := db.metrics ++ [m] }

/-- `Metrics.get_or_create_for_event(event)` followed by
`update_metrics()`: store a freshly recomputed row for the event. -/
def recomputeMetrics (db : DB) (eid : Nat) : DB :=
  db.saveMetrics (update_metrics db eid)

/-- The distinct rejection messages of `BookingCreateSerializer.validate`
(`serializers.py` lines 110-137), in source order. -/
inductive BookingErr where
  | holdNotFound
  | holdNotActive
  | holdExpired
  | invalidToken
  | alreadyBooked
deriving DecidableEq, Repr

/-- `BookingCreateSerializer.validate` (`serializers.py` line 110):
look up the hold, then check ACTIVE status, expiry, payment token and
absence of an existing booking, in that order. -/
def bookingValidate (db : DB) (now hid tok : Nat) : Except BookingErr Hold :=
  match findHold db hid with
  | none => .error .holdNotFound
  | some hold =>
    if hold.status ≠ Status.ACTIVE then .error .holdNotActive
    else if hold.is_expired now then .error .holdExpired
    else if hold.paymentToken ≠ tok then .error .invalidToken
    else if hasBooking db hold.id then .error .alreadyBooked
    else .ok hold

/-- Outcome of `BookingView.post`: 200 with the existing booking
reference, 201 with a fresh one, or a 400 validation error. -/
inductive BookingResult where
  | okExisting (bookingId : Nat)
  | okCreated (bookingId : Nat)
  | err (e : BookingErr)
deriving DecidableEq, Repr

/-- The `transaction.atomic()` block of `BookingView.post`
(`views.py` lines 171-209): return the existing booking if one exists,
otherwise insert a Booking row, overwrite the hold's status with BOOKED
(no row lock, no status re-check) and recompute the event's metrics. -/
def bookingCommit (db : DB) (hold : Hold) (newBookingId : Nat) : DB × BookingResult :=
  if hasBooking db hold.id then
    (db, .okExisting (orZero ((db.bookings.find? (fun b => b.holdId == hold.id)).map Booking.bookingId)))
  else
    let db1 : DB := { db with bookings := db.bookings ++ [{ holdId := hold.id, bookingId := newBookingId }] }
    let db2 := db1.saveHoldStatus hold.id Status.BOOKED
    let db3 := recomputeMetrics db2 hold.eventId
    (db3, .okCreated newBookingId)

/-- `BookingView.post` (`views.py` line 163): serializer validation
followed by the atomic commit block, sequentially (no interleaved
writer between the two). -/
def bookingView_post (db : DB) (now hid tok newBookingId : Nat) : DB × BookingResult :=
  match bookingValidate db now hid tok with
  | .error e => (db, .err e)
  | .ok hold => bookingCommit db hold newBookingId

/-- The distinct rejection messages of `HoldCreateSerializer`
(`serializers.py` lines 31-67). -/
inductive HoldErr where
  | eventNotFound
  | qtyTooSmall
  | ttlOutOfRange
  | notEnoughSeats
deriving DecidableEq, Repr

/-- Outcome of `HoldView.post`: 201 created, 400 serializer validation
error, 409 conflict from the in-lock double check, or 500 when the
insert violates a unique constraint. -/
inductive HoldResult where
  | created (holdId : Nat)
  | validationErr (e : HoldErr)
  | conflict
  | storeErr
deriving DecidableEq, Repr

/-- `HoldCreateSerializer` field validation plus `validate`
(`serializers.py` lines 31-67): qty ≥ 1, ttl within bounds, the event
exists, and the requested qty does not exceed `available_seats`. -/
def holdSerializerValidate (db : DB) (eid qty ttl maxTtl : Nat) : Except HoldErr Event :=
  if qty < 1 then .error .qtyTooSmall
  else if ttl < 1 ∨ maxTtl < ttl then .error .ttlOutOfRange
  else
    match findEvent db eid with
    | none => .error .eventNotFound
    | some ev =>
      if (qty : Int) > available_seats db ev then .error .notEnoughSeats
      else .ok ev

/-- `HoldCreateSerializer.create` (`serializers.py` line 69): a fresh
ACTIVE hold with `expires_at = now + ttl` minutes and a fresh payment
token. -/
def holdSerializerCreate (ev : Event) (qty now ttl newHoldId newToken : Nat) : Hold :=
  { id := newHoldId
    eventId := ev.id
    qty := qty
    expiresAt := now + ttl * 60
    paymentToken := newToken
    status := Status.ACTIVE }

/-- The `expire_specific_hold.apply_async` call of `HoldView.post`
(`views.py` lines 113-118), which can raise. -/
def scheduleExpiryTask (fails : Bool) : Except Unit Unit :=
  if fails then .error () else .ok ()

/-- `HoldView.post` (`views.py` line 82): serializer validation, then —
under the per-event Redis lock — the availability double check (409 on
failure), the insert (unique constraints on id and payment_token), and
the best-effort expiry-task scheduling whose failure is only logged. -/
def holdView_post (db : DB) (now eid qty ttl maxTtl newHoldId newToken : Nat)
    (scheduleFails : Bool) : DB × HoldResult :=
  match holdSerializerValidate db eid qty ttl maxTtl with
  | .error e => (db, .validationErr e)
  | .ok ev =>
    if (qty : Int) > available_seats db ev then (db, .conflict)
    else if db.holds.any (fun h => h.id == newHoldId || h.paymentToken == newToken) then
      (db, .storeErr)
    else
      let db1 : DB := { db with holds := db.holds ++ [holdSerializerCreate ev qty now ttl newHoldId newToken] }
      match scheduleExpiryTask scheduleFails with
      | .error _ => (db1, .created newHoldId)
      | .ok _ => (db1, .created newHoldId)

/-- Outcome of `expire_specific_hold`: the task either expires the hold,
skips a not-yet-due hold, or silently finds no ACTIVE row; every
exception is caught inside the task, so there is no error outcome. -/
inductive ExpiryOutcome where
  | expired
  | notDue
  | notFound
deriving DecidableEq, Repr

/-- `expire_specific_hold` (`tasks.py` line 13): under a transaction,
`select_for_update().get(id=hid, status=ACTIVE)` — a miss is caught and
ignored; on a hit, flip to EXPIRED only when `is_expired`, then
recompute the event's metrics. -/
def expire_specific_hold (db : DB) (now hid : Nat) : DB × ExpiryOutcome :=
  match db.holds.find? (fun h => h.id == hid && h.status == Status.ACTIVE) with
  | none => (db, .notFound)
  | some hold =>
    if hold.is_expired now then
      let db1 := db.saveHoldStatus hid Status.EXPIRED
      let db2 := recomputeMetrics db1 hold.eventId
      (db2, .expired)
    else (db, .notDue)

/-- `EventMetricsView.get` (`views.py` line 287): 404 when the event is
unknown; otherwise recompute and store the event's metrics row and
serialize that freshly recomputed row. -/
def eventMetricsView_get (db : DB) (eid : Nat) : DB × Option MetricsRow :=
  match findEvent db eid with
  | none => (db, none)
  | some ev =>
    let fresh := update_metrics db ev.id
    (db.saveMetrics fresh, some fresh)

/-- One committed engine operation: a hold-creation request, a booking
confirmation request, or a run of the delayed expiry task. -/
inductive Op where
  | createHold (now eid qty ttl maxTtl newHoldId newToken : Nat) (scheduleFails : Bool)
  | confirmBooking (now hid tok newBookingId : Nat)
  | expireHold (now hid : Nat)
deriving DecidableEq, Repr

/-- The committed state after one engine operation. -/
def applyOp (db : DB) : Op → DB
  | .createHold now eid qty ttl maxTtl nh nt sf => (holdView_post db now eid qty ttl maxTtl nh nt sf).1
  | .confirmBooking now hid tok nb => (bookingView_post db now hid tok nb).1
  | .expireHold now hid => (expire_specific_hold db now hid).1

/-- The committed state after a sequence of engine operations. -/
def run (db : DB) (ops : List Op) : DB :=
  ops.foldl applyOp db

/-- Atomic steps of the race between the Expiry Processor and the
Booking Finalizer on one hold.  The expiry task holds its row lock from
read to commit, so it is one step; `BookingView.post` validates outside
its transaction and commits without re-reading the row, so it is two
steps with a scheduling point between them. -/
inductive RaceLabel where
  | expiryRun (now : Nat)
  | bookValidate (now : Nat)
  | bookCommit
deriving DecidableEq, Repr

/-- State of the race: the committed database, the booking request's
validated hold snapshot, and the booking request's response if sent. -/
structure RaceState where
  db : DB
  validated : Option Hold
  result : Option BookingResult
deriving DecidableEq, Repr

/-- Execute one race step against the committed state. -/
def raceStep (hid tok nb : Nat) (s : RaceState) : RaceLabel → RaceState
  | .expiryRun now => { s with db := (expire_specific_hold s.db now hid).1 }
  | .bookValidate now =>
    match bookingValidate s.db now hid tok with
    | .ok hold => { s with validated := some hold }
    | .error e => { s with result := some (.err e) }
  | .bookCommit =>
    match s.validated with
    | none => s
    | some hold =>
      let p := bookingCommit s.db hold nb
      { s with db := p.1, result := some p.2 }

/-- Execute an interleaving of race steps. -/
def raceRun (hid tok nb : Nat) (s : RaceState) (ls : List RaceLabel) : RaceState :=
  ls.foldl (raceStep hid tok nb) s

/-- Summed qty of the event's holds with a given status, as a plain
filter-map-sum (the spec's `Σ qty where status == st`). -/
def statusQty (db : DB) (eid : Nat) (st : Status) : Nat :=
  (((db.eventHolds eid).filter (fun h => h.status == st)).map Hold.qty).sum

/-- The seats one hold contributes to its event's ACTIVE+BOOKED total. -/
def contrib (eid : Nat) (h : Hold) : Nat :=
  if h.eventId = eid ∧ (h.status = Status.ACTIVE ∨ h.status = Status.BOOKED) then h.qty else 0

/-- Well-formedness of a committed state: primary keys are unique,
Booking rows and BOOKED statuses determine each other, and no event's
ACTIVE+BOOKED seat total exceeds its capacity. -/
structure WF (db : DB) : Prop where
  nodupHoldIds : (db.holds.map Hold.id).Nodup
  nodupEventIds : (db.events.map Event.id).Nodup
  bookingHold : ∀ b ∈ db.bookings, ∃ h ∈ db.holds, h.id = b.holdId ∧ h.status = Status.BOOKED
  bookedHasBooking : ∀ h ∈ db.holds, h.status = Status.BOOKED → hasBooking db h.id = true
  noOversell : ∀ ev ∈ db.events,
    statusQty db ev.id Status.ACTIVE + statusQty db ev.id Status.BOOKED ≤ ev.totalSeats

/-- A ten-seat event used by the concrete race and booking scenarios. -/
def sampleEvent : Event := { id := 0, totalSeats := 10 }

/-- An ACTIVE two-seat hold on `sampleEvent` expiring at time 10. -/
def sampleHold : Hold :=
  { id := 1, eventId := 0, qty := 2, expiresAt := 10, paymentToken := 7, status := Status.ACTIVE }

/-- Committed state with one event and one ACTIVE hold due at time 10. -/
def raceDB : DB := { events := [sampleEvent], holds := [sampleHold], bookings := [], metrics := [] }

/-- The race's initial configuration: no validation done, no response. -/
def raceStart : RaceState := { db := raceDB, validated := none, result := none }

/-- The interleaving that loses the race: the booking request validates
at time 5, the expiry task fires at time 11, and the booking commit runs
last. -/
def raceSchedule : List RaceLabel :=
  [RaceLabel.bookValidate 5, RaceLabel.expiryRun 11, RaceLabel.bookCommit]

/-- Committed state with one event and one ACTIVE hold due at time 100,
used for the booking-retry scenario. -/
def retryDB : DB :=
  { events := [sampleEvent]
    holds := [{ id := 1, eventId := 0, qty := 2, expiresAt := 100, paymentToken := 7, status := Status.ACTIVE }]
    bookings := []
    metrics := [] }

/-- Committed state with a two-seat event and no holds, used for the
insufficient-inventory scenario. -/
def smallEventDB : DB :=
  { events := [{ id := 0, totalSeats := 2 }], holds := [], bookings := [], metrics := [] }

/-! Helper lemmas about the embedded operations. -/

/-- The aggregate-or-0 idiom computes the plain filter-map sum. -/
theorem orZero_aggSum (l : List Hold) : orZero (aggSumQty l) = (l.map Hold.qty).sum := by
  cases l <;> simp [aggSumQty, orZero]

/-- `find?` ignores a right extension once it hits on the left. -/
theorem find?_append_some {p : Hold → Bool} {l₁ l₂ : List Hold} {a : Hold}
    (h : l₁.find? p = some a) : (l₁ ++ l₂).find? p = some a := by
  rw [List.find?_append, h]; rfl

/-- `find?` moves past a left part it misses. -/
theorem find?_append_none {p : Hold → Bool} {l₁ l₂ : List Hold}
    (h : l₁.find? p = none) : (l₁ ++ l₂).find? p = l₂.find? p := by
  rw [List.find?_append, h]; rfl

/-- Writing a status never changes a row's primary key. -/
theorem updStatus_id (hid : Nat) (st : Status) (h : Hold) : (updStatus hid st h).id = h.id := by
  unfold updStatus; split <;> rfl

/-- Primary-key lookup after a status write returns the updated row. -/
theorem findHold_saveHoldStatus (db : DB) (hid' st hid) :
    findHold (db.saveHoldStatus hid' st) hid = (findHold db hid).map (updStatus hid' st) := by
  unfold findHold DB.saveHoldStatus
  have hp : ((fun h : Hold => h.id == hid) ∘ updStatus hid' st) = (fun h : Hold => h.id == hid) := by
    funext h
    simp [Function.comp, updStatus_id]
  rw [List.find?_map, hp]

/-- A status write keeps the multiset of primary keys. -/
theorem saveHoldStatus_ids (db : DB) (hid st) :
    ((db.saveHoldStatus hid st).holds.map Hold.id) = db.holds.map Hold.id := by
  unfold DB.saveHoldStatus
  rw [List.map_map]
  exact List.map_congr_left (fun h _ => updStatus_id hid st h)

/-- Storing a metrics row touches no other table. -/
theorem saveMetrics_tables (db : DB) (m : MetricsRow) :
    (db.saveMetrics m).events = db.events ∧ (db.saveMetrics m).holds = db.holds ∧
      (db.saveMetrics m).bookings = db.bookings := by
  unfold DB.saveMetrics; split <;> exact ⟨rfl, rfl, rfl⟩

/-- Recomputing metrics touches no other table. -/
theorem recomputeMetrics_tables (db : DB) (eid : Nat) :
    (recomputeMetrics db eid).events = db.events ∧ (recomputeMetrics db eid).holds = db.holds ∧
      (recomputeMetrics db eid).bookings = db.bookings :=
  saveMetrics_tables db (update_metrics db eid)

/-- With unique primary keys, two rows sharing an id are the same row. -/
theorem hold_eq_of_id_eq {l : List Hold} (hnd : (l.map Hold.id).Nodup)
    {a b : Hold} (ha : a ∈ l) (hb : b ∈ l) (h : a.id = b.id) : a = b :=
  List.inj_on_of_nodup_map hnd ha hb h

/-- With unique event ids, two event rows sharing an id are equal. -/
theorem event_eq_of_id_eq {l : List Event} (hnd : (l.map Event.id).Nodup)
    {a b : Event} (ha : a ∈ l) (hb : b ∈ l) (h : a.id = b.id) : a = b :=
  List.inj_on_of_nodup_map hnd ha hb h

/-- The ACTIVE and BOOKED per-event sums add up to the per-hold
`contrib` total. -/
theorem statusQty_active_add_booked (db : DB) (eid : Nat) :
    statusQty db eid Status.ACTIVE + statusQty db eid Status.BOOKED
      = (db.holds.map (contrib eid)).sum := by
  unfold statusQty DB.eventHolds
  induction db.holds with
  | nil => rfl
  | cons h t ih =>
    by_cases he : h.eventId = eid
    · cases hst : h.status <;> simp [List.filter_cons, he, hst, contrib, ← ih] <;> omega
    · simp [List.filter_cons, he, contrib, ← ih]

/-- A successful primary-key lookup returns a member with that key. -/
theorem findHold_facts {db : DB} {hid : Nat} {hold : Hold} (h : findHold db hid = some hold) :
    hold ∈ db.holds ∧ hold.id = hid := by
  unfold findHold at h
  exact ⟨List.mem_of_find?_eq_some h, by simpa using List.find?_some h⟩

/-- A successful event lookup returns a member with that key. -/
theorem findEvent_facts {db : DB} {eid : Nat} {ev : Event} (h : findEvent db eid = some ev) :
    ev ∈ db.events ∧ ev.id = eid := by
  unfold findEvent at h
  exact ⟨List.mem_of_find?_eq_some h, by simpa using List.find?_some h⟩

/-- What a passed booking validation guarantees about the hold. -/
theorem bookingValidate_ok_facts {db : DB} {now hid tok : Nat} {hold : Hold}
    (h : bookingValidate db now hid tok = .ok hold) :
    findHold db hid = some hold ∧ hold.status = Status.ACTIVE ∧
      ¬ now > hold.expiresAt ∧ hold.paymentToken = tok ∧ hasBooking db hold.id = false := by
  unfold bookingValidate at h
  cases hf : findHold db hid with
  | none => rw [hf] at h; simp at h
  | some hv =>
    rw [hf] at h
    dsimp only at h
    split at h
    · simp at h
    next h1 =>
      split at h
      · simp at h
      next h2 =>
        split at h
        · simp at h
        next h3 =>
          split at h
          · simp at h
          next h4 =>
            cases h
            refine ⟨rfl, not_not.mp h1, ?_, not_not.mp h3, by simpa using h4⟩
            simpa [Hold.is_expired] using h2

/-- What a passed hold-serializer validation guarantees. -/
theorem holdSerializerValidate_ok_facts {db : DB} {eid qty ttl maxTtl : Nat} {ev : Event}
    (h : holdSerializerValidate db eid qty ttl maxTtl = .ok ev) :
    1 ≤ qty ∧ findEvent db eid = some ev ∧ ¬ (qty : Int) > available_seats db ev := by
  unfold holdSerializerValidate at h
  split at h
  · simp at h
  next h1 =>
    split at h
    · simp at h
    next h2 =>
      cases hf : findEvent db eid with
      | none => rw [hf] at h; simp at h
      | some ev' =>
        rw [hf] at h
        dsimp only at h
        split at h
        · simp at h
        next h3 =>
          cases h
          exact ⟨by omega, rfl, h3⟩

/-- Case shape of `HoldView.post`: either nothing is committed, or the
serializer passed, the in-lock availability check passed, the unique
constraints were free and exactly the fresh ACTIVE hold was inserted. -/
theorem holdView_post_state (db : DB) (now eid qty ttl maxTtl nh nt : Nat) (sf : Bool) :
    (holdView_post db now eid qty ttl maxTtl nh nt sf).1 = db ∨
    ∃ ev, holdSerializerValidate db eid qty ttl maxTtl = .ok ev ∧
      ¬ (qty : Int) > available_seats db ev ∧
      db.holds.any (fun h => h.id == nh || h.paymentToken == nt) = false ∧
      (holdView_post db now eid qty ttl maxTtl nh nt sf).1
        = { db with holds := db.holds ++ [holdSerializerCreate ev qty now ttl nh nt] } ∧
      (holdView_post db now eid qty ttl maxTtl nh nt sf).2 = .created nh := by
  unfold holdView_post
  cases hser : holdSerializerValidate db eid qty ttl maxTtl with
  | error e => exact Or.inl rfl
  | ok ev =>
    dsimp only
    by_cases hav : (qty : Int) > available_seats db ev
    · rw [if_pos hav]
      exact Or.inl rfl
    · rw [if_neg hav]
      cases hany : db.holds.any (fun h => h.id == nh || h.paymentToken == nt) with
      | true => exact Or.inl rfl
      | false =>
        refine Or.inr ⟨ev, rfl, hav, rfl, ?_⟩
        cases sf <;> exact ⟨rfl, rfl⟩

/-- Case shape of `BookingView.post`: either nothing is committed, or
validation passed on a booking-free ACTIVE hold and the commit block
inserted the Booking row and overwrote the status with BOOKED. -/
theorem bookingView_post_state (db : DB) (now hid tok nb : Nat) :
    (bookingView_post db now hid tok nb).1 = db ∨
    ∃ hold, bookingValidate db now hid tok = .ok hold ∧
      (bookingView_post db now hid tok nb).1
        = recomputeMetrics
            (DB.saveHoldStatus
              { db with bookings := db.bookings ++ [{ holdId := hold.id, bookingId := nb }] }
              hold.id Status.BOOKED)
            hold.eventId ∧
      (bookingView_post db now hid tok nb).2 = .okCreated nb := by
  unfold bookingView_post
  cases hval : bookingValidate db now hid tok with
  | error e => exact Or.inl rfl
  | ok hold =>
    dsimp only
    have hnb : hasBooking db hold.id = false := (bookingValidate_ok_facts hval).2.2.2.2
    refine Or.inr ⟨hold, rfl, ?_⟩
    unfold bookingCommit
    rw [if_neg (by simp [hnb])]
    exact ⟨rfl, rfl⟩

/-- Case shape of `expire_specific_hold`: either nothing is committed,
or an overdue ACTIVE row was found and its status overwritten with
EXPIRED. -/
theorem expire_specific_hold_state (db : DB) (now hid : Nat) :
    (expire_specific_hold db now hid).1 = db ∨
    ∃ hold, db.holds.find? (fun h => h.id == hid && h.status == Status.ACTIVE) = some hold ∧
      now > hold.expiresAt ∧
      (expire_specific_hold db now hid).1
        = recomputeMetrics (db.saveHoldStatus hid Status.EXPIRED) hold.eventId := by
  unfold expire_specific_hold
  cases hf : db.holds.find? (fun h => h.id == hid && h.status == Status.ACTIVE) with
  | none => exact Or.inl rfl
  | some hold =>
    dsimp only
    by_cases hE : hold.is_expired now
    · refine Or.inr ⟨hold, rfl, by simpa [Hold.is_expired] using hE, ?_⟩
      rw [if_pos hE]
    · rw [if_neg hE]
      exact Or.inl rfl

/-- Primary-key lookup ignores the metrics table. -/
theorem findHold_recomputeMetrics (db : DB) (eid hid : Nat) :
    findHold (recomputeMetrics db eid) hid = findHold db hid := by
  unfold findHold
  rw [(recomputeMetrics_tables db eid).2.1]

/-- A hit lookup is unaffected by appending rows. -/
theorem findHold_append (db : DB) (x : Hold) (hid : Nat) {hold : Hold}
    (h : findHold db hid = some hold) :
    findHold { db with holds := db.holds ++ [x] } hid = some hold := by
  unfold findHold at h ⊢
  exact find?_append_some h

/-- A no-hit of the ACTIVE-filtered locked read makes the expiry task
a silent no-op. -/
theorem expire_specific_hold_miss (db : DB) (now hid : Nat)
    (h : db.holds.find? (fun h => h.id == hid && h.status == Status.ACTIVE) = none) :
    expire_specific_hold db now hid = (db, ExpiryOutcome.notFound) := by
  unfold expire_specific_hold
  rw [h]

/-- Membership in an event's hold set. -/
theorem mem_eventHolds {db : DB} {eid : Nat} {x : Hold} (hx : x ∈ db.eventHolds eid) :
    x ∈ db.holds ∧ x.eventId = eid := by
  unfold DB.eventHolds at hx
  have h := List.mem_filter.mp hx
  exact ⟨h.1, by simpa using h.2⟩

/-- In a well-formed state, a hold has a Booking row exactly when its
status is BOOKED. -/
theorem hasBooking_iff_booked {db : DB} (hwf : WF db) {x : Hold} (hx : x ∈ db.holds) :
    hasBooking db x.id = (x.status == Status.BOOKED) := by
  by_cases hs : x.status = Status.BOOKED
  · rw [hwf.bookedHasBooking x hx hs, hs]
    simp
  · cases hhb : hasBooking db x.id with
    | false => simp [hs]
    | true =>
      exfalso
      unfold hasBooking at hhb
      rw [List.any_eq_true] at hhb
      obtain ⟨b, hb, hbid⟩ := hhb
      obtain ⟨h, hhmem, hhid, hhst⟩ := hwf.bookingHold b hb
      have hhx : h = x := hold_eq_of_id_eq hwf.nodupHoldIds hhmem hx
        (by rw [hhid]; exact eq_of_beq hbid)
      exact hs (hhx ▸ hhst)

/-- `held_seats` is the ACTIVE status sum. -/
theorem held_seats_eq_statusQty (db : DB) (eid : Nat) :
    held_seats db eid = statusQty db eid Status.ACTIVE := by
  unfold held_seats statusQty
  rw [orZero_aggSum]

/-- In a well-formed state, the booking-existence sum used by
`available_seats` is the BOOKED status sum. -/
theorem booked_seats_eq_statusQty {db : DB} (hwf : WF db) (eid : Nat) :
    booked_seats db eid = statusQty db eid Status.BOOKED := by
  unfold booked_seats statusQty
  rw [orZero_aggSum,
    List.filter_congr (fun x hx => hasBooking_iff_booked hwf (mem_eventHolds hx).1)]

/-- Passing the availability check leaves room for the requested qty
on top of the ACTIVE+BOOKED total. -/
theorem statusQty_le_of_available {db : DB} (hwf : WF db) {ev : Event} {qty : Nat}
    (hq : 1 ≤ qty) (hav : ¬ (qty : Int) > available_seats db ev) :
    statusQty db ev.id Status.ACTIVE + statusQty db ev.id Status.BOOKED + qty
      ≤ ev.totalSeats := by
  unfold available_seats at hav
  rw [held_seats_eq_statusQty, booked_seats_eq_statusQty hwf] at hav
  rcases le_or_lt ((ev.totalSeats : Int) - statusQty db ev.id Status.ACTIVE
      - statusQty db ev.id Status.BOOKED) 0 with hle | hgt
  · rw [max_eq_left hle] at hav
    omega
  · rw [max_eq_right (le_of_lt hgt)] at hav
    omega

/-- Status sums after inserting one hold row. -/
theorem statusQty_append (db : DB) (x : Hold) (eid : Nat) (st : Status) :
    statusQty { db with holds := db.holds ++ [x] } eid st
      = statusQty db eid st + (if x.eventId = eid ∧ x.status = st then x.qty else 0) := by
  unfold statusQty DB.eventHolds
  by_cases he : x.eventId = eid
  · by_cases hs : x.status = st
    · simp [List.filter_append, he, hs]
    · simp [List.filter_append, he, hs]
  · simp [List.filter_append, he]

/-- Flipping a hold that is ACTIVE whenever it is hit to BOOKED keeps
its ACTIVE+BOOKED contribution. -/
theorem contrib_updStatus_booked {eid hid : Nat} {x : Hold}
    (hx : x.id = hid → x.status = Status.ACTIVE) :
    contrib eid (updStatus hid Status.BOOKED x) = contrib eid x := by
  by_cases hq : x.id = hid
  · have hupd : updStatus hid Status.BOOKED x = { x with status := Status.BOOKED } := by
      rw [updStatus, if_pos (by simp [hq])]
    rw [hupd]
    simp [contrib, hx hq]
  · have hupd : updStatus hid Status.BOOKED x = x := by
      rw [updStatus, if_neg (by simp [hq])]
    rw [hupd]

/-- Flipping any hold to EXPIRED never raises its ACTIVE+BOOKED
contribution. -/
theorem contrib_updStatus_expired (eid hid : Nat) (x : Hold) :
    contrib eid (updStatus hid Status.EXPIRED x) ≤ contrib eid x := by
  by_cases hq : x.id = hid
  · have hupd : updStatus hid Status.EXPIRED x = { x with status := Status.EXPIRED } := by
      rw [updStatus, if_pos (by simp [hq])]
    rw [hupd]
    have hz : contrib eid { x with status := Status.EXPIRED } = 0 := by
      unfold contrib
      rw [if_neg (by simp)]
    rw [hz]
    exact Nat.zero_le _
  · have hupd : updStatus hid Status.EXPIRED x = x := by
      rw [updStatus, if_neg (by simp [hq])]
    rw [hupd]

/-- Well-formedness only depends on the events, holds and bookings
tables. -/
theorem WF_congr {db db' : DB} (hwf : WF db) (he : db'.events = db.events)
    (hh : db'.holds = db.holds) (hb : db'.bookings = db.bookings) : WF db' := by
  have hhb : ∀ hid, hasBooking db' hid = hasBooking db hid := by
    intro hid
    unfold hasBooking
    rw [hb]
  have hsq : ∀ eid st, statusQty db' eid st = statusQty db eid st := by
    intro eid st
    unfold statusQty DB.eventHolds
    rw [hh]
  refine ⟨?_, ?_, ?_, ?_, ?_⟩
  · rw [hh]
    exact hwf.nodupHoldIds
  · rw [he]
    exact hwf.nodupEventIds
  · rw [hb, hh]
    exact hwf.bookingHold
  · intro h hm hs
    rw [hh] at hm
    rw [hhb]
    exact hwf.bookedHasBooking h hm hs
  · intro ev hev
    rw [he] at hev
    rw [hsq, hsq]
    exact hwf.noOversell ev hev

/-- `hasBooking` after inserting one Booking row. -/
theorem hasBooking_append (db : DB) (b : Booking) (hid : Nat) :
    hasBooking { db with bookings := db.bookings ++ [b] } hid
      = (hasBooking db hid || (b.holdId == hid)) := by
  unfold hasBooking
  simp [List.any_append]

/-- Every engine operation preserves well-formedness of the committed
state. -/
theorem WF_applyOp {db : DB} (hwf : WF db) (op : Op) : WF (applyOp db op) := by
  cases op with
  | createHold now eid qty ttl maxTtl nh nt sf =>
    simp only [applyOp]
    rcases holdView_post_state db now eid qty ttl maxTtl nh nt sf with
      hst | ⟨ev, hser, hav, hany, hst, hres⟩
    · rw [hst]
      exact hwf
    · rw [hst]
      obtain ⟨hq, hev, hav2⟩ := holdSerializerValidate_ok_facts hser
      obtain ⟨hevmem, hevid⟩ := findEvent_facts hev
      rw [List.any_eq_false] at hany
      have hfresh : ∀ h ∈ db.holds, h.id ≠ nh := by
        intro h hh
        have := hany h hh
        simp at this
        exact this.1
      refine ⟨?_, ?_, ?_, ?_, ?_⟩
      · rw [show ({ db with holds := db.holds ++ [holdSerializerCreate ev qty now ttl nh nt] } : DB).holds
            = db.holds ++ [holdSerializerCreate ev qty now ttl nh nt] from rfl, List.map_append]
        refine List.Nodup.append hwf.nodupHoldIds (by simp) ?_
        intro a ha hb
        simp at hb
        obtain ⟨h, hh, hhid⟩ := List.mem_map.mp ha
        exact hfresh h hh (by rw [hhid, hb]; rfl)
      · exact hwf.nodupEventIds
      · intro b hb
        obtain ⟨h, hh, hhid, hhs⟩ := hwf.bookingHold b hb
        exact ⟨h, List.mem_append_left _ hh, hhid, hhs⟩
      · intro h hm hs
        rcases List.mem_append.mp hm with hm | hm
        · exact hwf.bookedHasBooking h hm hs
        · simp at hm
          rw [hm] at hs
          exact absurd hs (by simp [holdSerializerCreate])
      · intro ev' hev'
        rw [statusQty_append, statusQty_append]
        by_cases hide : ev'.id = ev.id
        · have hee : ev' = ev := event_eq_of_id_eq hwf.nodupEventIds hev' hevmem hide
          subst hee
        -- the new row is ACTIVE with qty for this event, 0 for BOOKED
          have hbound := statusQty_le_of_available hwf hq hav2
          simp only [holdSerializerCreate, hide]
          simp
          omega
        · have hne : ¬ ((holdSerializerCreate ev qty now ttl nh nt).eventId = ev'.id) := by
            simp [holdSerializerCreate]
            intro hcon
            exact hide hcon.symm
          rw [if_neg (by intro hcon; exact hne hcon.1), if_neg (by intro hcon; exact hne hcon.1)]
          simpa using hwf.noOversell ev' hev'
  | confirmBooking now hid2 tok nb =>
    simp only [applyOp]
    rcases bookingView_post_state db now hid2 tok nb with hst | ⟨hv, hval, hst, hres⟩
    · rw [hst]
      exact hwf
    · rw [hst]
      obtain ⟨hfv, hact, hexp, htok, hnbk⟩ := bookingValidate_ok_facts hval
      obtain ⟨hvmem, hvid⟩ := findHold_facts hfv
      have hD : WF (DB.saveHoldStatus
          { db with bookings := db.bookings ++ [{ holdId := hv.id, bookingId := nb }] }
          hv.id Status.BOOKED) := by
        refine ⟨?_, ?_, ?_, ?_, ?_⟩
        · rw [saveHoldStatus_ids]
          exact hwf.nodupHoldIds
        · exact hwf.nodupEventIds
        · intro b hb
          rcases List.mem_append.mp hb with hb | hb
          · obtain ⟨h, hh, hhid, hhs⟩ := hwf.bookingHold b hb
            have hne : h.id ≠ hv.id := by
              intro hcon
              have := hold_eq_of_id_eq hwf.nodupHoldIds hh hvmem hcon
              rw [this, hact] at hhs
              exact Status.noConfusion hhs
            refine ⟨updStatus hv.id Status.BOOKED h,
              List.mem_map_of_mem _ hh, ?_, ?_⟩
            · rw [updStatus, if_neg (by simp [hne])]
              exact hhid
            · rw [updStatus, if_neg (by simp [hne])]
              exact hhs
          · simp at hb
            subst hb
            refine ⟨updStatus hv.id Status.BOOKED hv, List.mem_map_of_mem _ hvmem, ?_, ?_⟩
            · rw [updStatus, if_pos (by simp)]
            · rw [updStatus, if_pos (by simp)]
        · intro h hm hs
          obtain ⟨y, hy, rfl⟩ := List.mem_map.mp hm
          have hAB : ∀ hid, hasBooking (DB.saveHoldStatus
              { db with bookings := db.bookings ++ [{ holdId := hv.id, bookingId := nb }] }
              hv.id Status.BOOKED) hid
              = (hasBooking db hid || ((⟨hv.id, nb⟩ : Booking).holdId == hid)) := by
            intro hid
            exact hasBooking_append db { holdId := hv.id, bookingId := nb } hid
          rw [hAB, updStatus_id]
          by_cases hyid : y.id = hv.id
          · simp [hyid]
          · have hyy : updStatus hv.id Status.BOOKED y = y := by
              rw [updStatus, if_neg (by simp [hyid])]
            rw [hyy] at hs
            rw [hwf.bookedHasBooking y hy hs]
            simp
        · intro ev hev
          rw [statusQty_active_add_booked]
          have hDh : (DB.saveHoldStatus
              { db with bookings := db.bookings ++ [{ holdId := hv.id, bookingId := nb }] }
              hv.id Status.BOOKED).holds
              = db.holds.map (updStatus hv.id Status.BOOKED) := rfl
          have hpw : ∀ x ∈ db.holds,
              (contrib ev.id ∘ updStatus hv.id Status.BOOKED) x = contrib ev.id x := by
            intro x hx
            refine contrib_updStatus_booked ?_
            intro hxid
            have hxv : x = hv := hold_eq_of_id_eq hwf.nodupHoldIds hx hvmem hxid
            rw [hxv]
            exact hact
          rw [hDh, List.map_map, List.map_congr_left hpw, ← statusQty_active_add_booked]
          exact hwf.noOversell ev hev
      exact WF_congr hD (recomputeMetrics_tables _ _).1 (recomputeMetrics_tables _ _).2.1
        (recomputeMetrics_tables _ _).2.2
  | expireHold now hid2 =>
    simp only [applyOp]
    rcases expire_specific_hold_state db now hid2 with hst | ⟨hx, hfx, hdue, hst⟩
    · rw [hst]
      exact hwf
    · rw [hst]
      have hxpred := List.find?_some hfx
      simp only [Bool.and_eq_true, beq_iff_eq] at hxpred
      have hxmem := List.mem_of_find?_eq_some hfx
      have hD : WF (db.saveHoldStatus hid2 Status.EXPIRED) := by
        refine ⟨?_, ?_, ?_, ?_, ?_⟩
        · rw [saveHoldStatus_ids]
          exact hwf.nodupHoldIds
        · exact hwf.nodupEventIds
        · intro b hb
          obtain ⟨h, hh, hhid, hhs⟩ := hwf.bookingHold b hb
          have hne : h.id ≠ hid2 := by
            intro hcon
            have heq : h = hx := hold_eq_of_id_eq hwf.nodupHoldIds hh hxmem
              (by rw [hcon, hxpred.1])
            rw [heq, hxpred.2] at hhs
            exact Status.noConfusion hhs
          refine ⟨updStatus hid2 Status.EXPIRED h, List.mem_map_of_mem _ hh, ?_, ?_⟩
          · rw [updStatus, if_neg (by simp [hne])]
            exact hhid
          · rw [updStatus, if_neg (by simp [hne])]
            exact hhs
        · intro h hm hs
          obtain ⟨y, hy, rfl⟩ := List.mem_map.mp hm
          by_cases hyid : y.id = hid2
          · exfalso
            have hupd : updStatus hid2 Status.EXPIRED y = { y with status := Status.EXPIRED } := by
              rw [updStatus, if_pos (by simp [hyid])]
            rw [hupd] at hs
            exact Status.noConfusion hs
          · have hyy : updStatus hid2 Status.EXPIRED y = y := by
              rw [updStatus, if_neg (by simp [hyid])]
            rw [hyy] at hs ⊢
            exact hwf.bookedHasBooking y hy hs
        · intro ev hev
          rw [statusQty_active_add_booked]
          have hDh : (db.saveHoldStatus hid2 Status.EXPIRED).holds
              = db.holds.map (updStatus hid2 Status.EXPIRED) := rfl
          rw [hDh, List.map_map]
          calc (db.holds.map (contrib ev.id ∘ updStatus hid2 Status.EXPIRED)).sum
              ≤ (db.holds.map (contrib ev.id)).sum :=
                List.sum_le_sum (fun x _ => contrib_updStatus_expired ev.id hid2 x)
            _ = statusQty db ev.id Status.ACTIVE + statusQty db ev.id Status.BOOKED :=
                (statusQty_active_add_booked db ev.id).symm
            _ ≤ ev.totalSeats := hwf.noOversell ev hev
      exact WF_congr hD (recomputeMetrics_tables _ _).1 (recomputeMetrics_tables _ _).2.1
        (recomputeMetrics_tables _ _).2.2

/-- Well-formedness is preserved along any operation sequence. -/
theorem WF_run {db : DB} (hwf : WF db) (ops : List Op) : WF (run db ops) := by
  induction ops generalizing db with
  | nil => exact hwf
  | cons op rest ih => exact ih (WF_applyOp hwf op)

/-! Claim theorems. -/

/-- C5: for every event, `available_seats` equals
`max(0, total_seats − held − booked)` where `held` sums the qty of the
event's ACTIVE holds and `booked` sums the qty of the event's holds
that have a Booking record. -/
theorem c5_available_seats_formula (db : DB) (ev : Event) :
    available_seats db ev =
      max 0 ((ev.totalSeats : Int)
        - (((db.eventHolds ev.id).filter (fun h => h.status == Status.ACTIVE)).map Hold.qty).sum
        - (((db.eventHolds ev.id).filter (fun h => hasBooking db h.id)).map Hold.qty).sum) := by
  unfold available_seats held_seats booked_seats
  rw [orZero_aggSum, orZero_aggSum]

/-- C1: the claimed mutual exclusion of the terminal statuses fails on
the code.  `BookingView.post` validates outside its transaction and
commits without a row lock or status re-check, so in the interleaving
`raceSchedule` (validate at 5, expiry task at 11, booking commit last)
the hold's committed status reaches EXPIRED and is then overwritten by
BOOKED with a Booking row — both terminal statuses are reached and
EXPIRED does not persist. -/
theorem c1_race_reaches_both_terminal_statuses :
    (findHold (raceRun 1 7 42 raceStart [RaceLabel.bookValidate 5, RaceLabel.expiryRun 11]).db 1).map
        Hold.status = some Status.EXPIRED ∧
    (findHold (raceRun 1 7 42 raceStart raceSchedule).db 1).map Hold.status = some Status.BOOKED ∧
    hasBooking (raceRun 1 7 42 raceStart raceSchedule).db 1 = true ∧
    (raceRun 1 7 42 raceStart raceSchedule).result = some (BookingResult.okCreated 42) := by
  decide

/-- C4: booking is not idempotent on the code.  After a first successful
`ConfirmBooking` the hold's status is BOOKED, and the serializer's
status check rejects a retry with the same hold id and correct token
with the `holdNotActive` validation error before the idempotent
return-existing-booking branch can run; the retry does not return the
first call's booking reference. -/
theorem c4_booking_retry_rejected :
    (bookingView_post retryDB 5 1 7 42).2 = BookingResult.okCreated 42 ∧
    bookingView_post (bookingView_post retryDB 5 1 7 42).1 6 1 7 99 =
      ((bookingView_post retryDB 5 1 7 42).1, BookingResult.err BookingErr.holdNotActive) ∧
    (bookingView_post retryDB 5 1 7 42).1.bookings.length = 1 := by
  decide

/-- C6 counterexample: a `CreateHold` request whose qty exceeds the
event's availability is rejected by the serializer as a validation
error (HTTP 400), not as the claimed conflict (HTTP 409): requesting 5
seats of a fresh two-seat event returns `validationErr notEnoughSeats`,
which is not `conflict`. -/
theorem c6_reported_as_validation_not_conflict :
    holdView_post smallEventDB 0 0 5 10 60 1 7 false
        = (smallEventDB, HoldResult.validationErr HoldErr.notEnoughSeats) ∧
    HoldResult.validationErr HoldErr.notEnoughSeats ≠ HoldResult.conflict := by
  decide

/-- C7 counterexample: the code accepts a booking request arriving
exactly at the deadline.  `Hold.is_expired` is `now > expires_at`, so
with `now = expires_at = 10` validation passes and the booking is
created, contradicting the claim that any request at or after the
deadline fails `Expired`. -/
theorem c7_boundary_request_accepted :
    (bookingView_post raceDB 10 1 7 42).2 = BookingResult.okCreated 42 := by
  decide

/-- C6 (amended): a `CreateHold` request whose qty exceeds the event's
availability fails with the serializer's not-enough-seats message and
mutates no state; the failure is a validation error — the conflict
response exists only behind the in-lock double check. -/
theorem c6_insufficient_inventory_rejected (db : DB) (now eid qty ttl maxTtl nh nt : Nat)
    (sf : Bool) (ev : Event)
    (hev : findEvent db eid = some ev) (hq : 1 ≤ qty) (ht1 : 1 ≤ ttl) (ht2 : ttl ≤ maxTtl)
    (hgt : (qty : Int) > available_seats db ev) :
    holdView_post db now eid qty ttl maxTtl nh nt sf
      = (db, HoldResult.validationErr HoldErr.notEnoughSeats) := by
  have h1 : ¬ qty < 1 := by omega
  have h2 : ¬ (ttl < 1 ∨ maxTtl < ttl) := by omega
  unfold holdView_post holdSerializerValidate
  rw [if_neg h1, if_neg h2, hev]
  dsimp only
  rw [if_pos hgt]

/-- Witness for C6 (amended): five seats requested on a fresh two-seat
event are rejected by the serializer without touching state. -/
theorem c6_insufficient_inventory_rejected_witness :
    holdView_post smallEventDB 0 0 5 10 60 1 7 false
      = (smallEventDB, HoldResult.validationErr HoldErr.notEnoughSeats) :=
  c6_insufficient_inventory_rejected smallEventDB 0 0 5 10 60 1 7 false
    { id := 0, totalSeats := 2 } (by decide) (by decide) (by decide) (by decide) (by decide)

/-- C7 (amended): booking validation runs before any mutation and
rejects exactly when a precondition fails, with a strict deadline:
`holdNotActive` iff the hold is not ACTIVE, `holdExpired` iff it is
ACTIVE and `now > expires_at` (a request at exactly the deadline is
accepted), `invalidToken` iff it is ACTIVE, within the deadline and the
token differs; every validation error leaves the state untouched. -/
theorem c7_booking_validation_exact (db : DB) (now hid tok nb : Nat) (hold : Hold)
    (hfind : findHold db hid = some hold) :
    ((bookingView_post db now hid tok nb).2 = .err .holdNotActive
        ↔ hold.status ≠ Status.ACTIVE) ∧
    ((bookingView_post db now hid tok nb).2 = .err .holdExpired
        ↔ hold.status = Status.ACTIVE ∧ now > hold.expiresAt) ∧
    ((bookingView_post db now hid tok nb).2 = .err .invalidToken
        ↔ hold.status = Status.ACTIVE ∧ ¬ now > hold.expiresAt ∧ hold.paymentToken ≠ tok) ∧
    (∀ e, (bookingView_post db now hid tok nb).2 = .err e
        → (bookingView_post db now hid tok nb).1 = db) := by
  unfold bookingView_post bookingValidate
  rw [hfind]
  dsimp only
  by_cases hA : hold.status = Status.ACTIVE
  · rw [if_neg (by simpa using hA)]
    by_cases hE : now > hold.expiresAt
    · rw [if_pos (by simpa [Hold.is_expired] using hE)]
      simp [hA, hE]
    · rw [if_neg (by simpa [Hold.is_expired] using hE)]
      by_cases hT : hold.paymentToken = tok
      · rw [if_neg (by simpa using hT)]
        cases hB : hasBooking db hold.id with
        | true => simp [hA, hE, hT]
        | false => simp [bookingCommit, hB, hA, hE, hT]
      · rw [if_pos (by simpa using hT)]
        simp [hA, hE, hT]
  · rw [if_pos (by simpa using hA)]
    simp [hA]

/-- Witness for C7 (amended): on a hold expiring at 100, a request at
time 200 with the right token is rejected as expired. -/
theorem c7_booking_validation_exact_witness :
    (bookingView_post retryDB 200 1 7 42).2 = BookingResult.err BookingErr.holdExpired :=
  ((c7_booking_validation_exact retryDB 200 1 7 42
      { id := 1, eventId := 0, qty := 2, expiresAt := 100, paymentToken := 7, status := Status.ACTIVE }
      (by decide)).2.1).mpr (by decide)

/-- C2: Hold.status is monotonic under every engine operation applied
to a committed state with unique primary keys: a hold row either stays
the same or goes from ACTIVE to EXPIRED (expiry processing) or from
ACTIVE to BOOKED (booking confirmation), so once EXPIRED or BOOKED no
operation changes it. -/
theorem c2_status_monotonic (db : DB) (op : Op) (hid : Nat) (hold hold' : Hold)
    (hnd : (db.holds.map Hold.id).Nodup)
    (hfind : findHold db hid = some hold)
    (hfind' : findHold (applyOp db op) hid = some hold') :
    (hold' = hold ∨ (hold.status = Status.ACTIVE ∧
      (hold' = { hold with status := Status.EXPIRED }
        ∨ hold' = { hold with status := Status.BOOKED }))) ∧
    (hold.status ≠ Status.ACTIVE → hold' = hold) := by
  have main : hold' = hold ∨ (hold.status = Status.ACTIVE ∧
      (hold' = { hold with status := Status.EXPIRED }
        ∨ hold' = { hold with status := Status.BOOKED })) := by
    cases op with
    | createHold now2 eid qty ttl maxTtl nh nt sf =>
      simp only [applyOp] at hfind'
      rcases holdView_post_state db now2 eid qty ttl maxTtl nh nt sf with
        hst | ⟨ev, hser, hav, hany, hst, hres⟩
      · rw [hst, hfind] at hfind'
        exact Or.inl (Option.some.inj hfind').symm
      · rw [hst, findHold_append db _ hid hfind] at hfind'
        exact Or.inl (Option.some.inj hfind').symm
    | confirmBooking now2 hid2 tok nb =>
      simp only [applyOp] at hfind'
      rcases bookingView_post_state db now2 hid2 tok nb with hst | ⟨hv, hval, hst, hres⟩
      · rw [hst, hfind] at hfind'
        exact Or.inl (Option.some.inj hfind').symm
      · obtain ⟨hfv, hact, hexp, htok, hnb⟩ := bookingValidate_ok_facts hval
        rw [hst, findHold_recomputeMetrics, findHold_saveHoldStatus] at hfind'
        have heq : findHold
            { db with bookings := db.bookings ++ [{ holdId := hv.id, bookingId := nb }] } hid
            = findHold db hid := rfl
        rw [heq, hfind, Option.map_some'] at hfind'
        have h' : hold' = updStatus hv.id Status.BOOKED hold := (Option.some.inj hfind').symm
        by_cases hidq : hold.id = hv.id
        · have hhid : hold.id = hid := (findHold_facts hfind).2
          have hvid : hv.id = hid2 := (findHold_facts hfv).2
          have h1 : hid = hid2 := by rw [← hhid, hidq, hvid]
          have h2 : hold = hv := by
            have h3 := hfv
            rw [← h1, hfind] at h3
            exact Option.some.inj h3
          refine Or.inr ⟨h2 ▸ hact, Or.inr ?_⟩
          rw [h']
          simp [updStatus, hidq]
        · refine Or.inl ?_
          rw [h']
          simp [updStatus, hidq]
    | expireHold now2 hid2 =>
      simp only [applyOp] at hfind'
      rcases expire_specific_hold_state db now2 hid2 with hst | ⟨hx, hfx, hdue, hst⟩
      · rw [hst, hfind] at hfind'
        exact Or.inl (Option.some.inj hfind').symm
      · rw [hst, findHold_recomputeMetrics, findHold_saveHoldStatus, hfind,
          Option.map_some'] at hfind'
        have h' : hold' = updStatus hid2 Status.EXPIRED hold := (Option.some.inj hfind').symm
        by_cases hidq : hold.id = hid2
        · have hxmem : hx ∈ db.holds := List.mem_of_find?_eq_some hfx
          have hxpred := List.find?_some hfx
          simp only [Bool.and_eq_true, beq_iff_eq] at hxpred
          have hmem : hold ∈ db.holds := (findHold_facts hfind).1
          have hhx : hold = hx :=
            hold_eq_of_id_eq hnd hmem hxmem (by rw [hidq, hxpred.1])
          refine Or.inr ⟨hhx ▸ hxpred.2, Or.inl ?_⟩
          rw [h']
          simp [updStatus, hidq]
        · refine Or.inl ?_
          rw [h']
          simp [updStatus, hidq]
  refine ⟨main, fun hterm => ?_⟩
  rcases main with h | ⟨hact, _⟩
  · exact h
  · exact absurd hact hterm

/-- Witness for C2: expiring the due ACTIVE sample hold performs
exactly the permitted ACTIVE to EXPIRED transition. -/
theorem c2_status_monotonic_witness :
    { sampleHold with status := Status.EXPIRED } = sampleHold ∨
      (sampleHold.status = Status.ACTIVE ∧
        ({ sampleHold with status := Status.EXPIRED } = { sampleHold with status := Status.EXPIRED }
          ∨ { sampleHold with status := Status.EXPIRED } = { sampleHold with status := Status.BOOKED })) :=
  (c2_status_monotonic raceDB (Op.expireHold 11 1) 1 sampleHold
    { sampleHold with status := Status.EXPIRED } (by decide) (by decide) (by decide)).1

/-- C8: expiry processing is idempotent and a silent no-op on
non-ACTIVE (or missing) holds: when no ACTIVE row with the id exists the
task changes nothing and raises nothing; when the locked row is not yet
due it changes nothing; and for a due ACTIVE hold, running the task and
then running it again performs exactly one ACTIVE to EXPIRED transition
and the second run is an errorless no-op. -/
theorem c8_expiry_idempotent (db : DB) (now now2 hid : Nat) :
    (db.holds.find? (fun h => h.id == hid && h.status == Status.ACTIVE) = none →
      expire_specific_hold db now hid = (db, ExpiryOutcome.notFound)) ∧
    (∀ hold, db.holds.find? (fun h => h.id == hid && h.status == Status.ACTIVE) = some hold →
      ¬ now > hold.expiresAt →
      expire_specific_hold db now hid = (db, ExpiryOutcome.notDue)) ∧
    (∀ hold, (db.holds.map Hold.id).Nodup →
      db.holds.find? (fun h => h.id == hid && h.status == Status.ACTIVE) = some hold →
      now > hold.expiresAt →
      (expire_specific_hold db now hid).2 = ExpiryOutcome.expired ∧
      findHold (expire_specific_hold db now hid).1 hid
        = some { hold with status := Status.EXPIRED } ∧
      expire_specific_hold (expire_specific_hold db now hid).1 now2 hid
        = ((expire_specific_hold db now hid).1, ExpiryOutcome.notFound)) := by
  refine ⟨expire_specific_hold_miss db now hid, ?_, ?_⟩
  · intro hold hf hlate
    unfold expire_specific_hold
    rw [hf]
    dsimp only
    rw [if_neg (by simpa [Hold.is_expired] using hlate)]
  · intro hold hnodup hf hdue
    have hpred := List.find?_some hf
    simp only [Bool.and_eq_true, beq_iff_eq] at hpred
    have hmem := List.mem_of_find?_eq_some hf
    have hres : (expire_specific_hold db now hid).1
        = recomputeMetrics (db.saveHoldStatus hid Status.EXPIRED) hold.eventId ∧
        (expire_specific_hold db now hid).2 = ExpiryOutcome.expired := by
      unfold expire_specific_hold
      rw [hf]
      dsimp only
      rw [if_pos (by simpa [Hold.is_expired] using hdue)]
      exact ⟨rfl, rfl⟩
    have hfindid : findHold db hid = some hold := by
      cases hfid : findHold db hid with
      | none =>
        exfalso
        unfold findHold at hfid
        rw [List.find?_eq_none] at hfid
        exact hfid hold hmem (by simp [hpred.1])
      | some m =>
        have hmmem := (findHold_facts hfid).1
        have hmid := (findHold_facts hfid).2
        exact congrArg some (hold_eq_of_id_eq hnodup hmmem hmem (by rw [hmid, hpred.1]))
    refine ⟨hres.2, ?_, ?_⟩
    · rw [hres.1, findHold_recomputeMetrics, findHold_saveHoldStatus, hfindid,
        Option.map_some']
      simp [updStatus, hpred.1]
    · apply expire_specific_hold_miss
      have hholds : (expire_specific_hold db now hid).1.holds
          = db.holds.map (updStatus hid Status.EXPIRED) := by
        rw [hres.1, (recomputeMetrics_tables _ _).2.1]
        rfl
      rw [hholds, List.find?_eq_none]
      intro x hx
      obtain ⟨y, hy, rfl⟩ := List.mem_map.mp hx
      by_cases hyid : y.id = hid
      · simp [updStatus, hyid]
      · simp [updStatus, hyid]

/-- Witness for C8: the sample hold, due at 10 and processed at 11, is
expired exactly once and the duplicate delivery at 12 is a no-op. -/
theorem c8_expiry_idempotent_witness :
    (expire_specific_hold raceDB 11 1).2 = ExpiryOutcome.expired ∧
    findHold (expire_specific_hold raceDB 11 1).1 1
      = some { sampleHold with status := Status.EXPIRED } ∧
    expire_specific_hold (expire_specific_hold raceDB 11 1).1 12 1
      = ((expire_specific_hold raceDB 11 1).1, ExpiryOutcome.notFound) :=
  (c8_expiry_idempotent raceDB 11 12 1).2.2 sampleHold (by decide) (by decide) (by decide)

/-- C9: once the serializer and the in-lock availability check have
passed and the unique constraints are free, the outcome of
`HoldView.post` does not depend on whether scheduling the delayed
expiry task fails: the ACTIVE hold is created and the request succeeds
either way. -/
theorem c9_schedule_failure_not_fatal (db : DB) (now eid qty ttl maxTtl nh nt : Nat) (ev : Event)
    (hser : holdSerializerValidate db eid qty ttl maxTtl = .ok ev)
    (hav : ¬ (qty : Int) > available_seats db ev)
    (hfresh : db.holds.any (fun h => h.id == nh || h.paymentToken == nt) = false) :
    holdView_post db now eid qty ttl maxTtl nh nt true
        = ({ db with holds := db.holds ++ [holdSerializerCreate ev qty now ttl nh nt] },
            HoldResult.created nh) ∧
    (holdSerializerCreate ev qty now ttl nh nt).status = Status.ACTIVE ∧
    (∀ sf : Bool, holdView_post db now eid qty ttl maxTtl nh nt sf
        = holdView_post db now eid qty ttl maxTtl nh nt true) := by
  have hmain : ∀ sf : Bool, holdView_post db now eid qty ttl maxTtl nh nt sf
      = ({ db with holds := db.holds ++ [holdSerializerCreate ev qty now ttl nh nt] },
          HoldResult.created nh) := by
    intro sf
    unfold holdView_post
    rw [hser]
    dsimp only
    rw [if_neg hav, if_neg (by simp [hfresh])]
    cases sf <;> rfl
  exact ⟨hmain true, rfl, fun sf => by rw [hmain sf, hmain true]⟩

/-- Witness for C9: creating a two-seat hold on the fresh two-seat
event succeeds even though scheduling the expiry task fails. -/
theorem c9_schedule_failure_not_fatal_witness :
    holdView_post smallEventDB 0 0 2 10 60 1 7 true
      = ({ smallEventDB with
            holds := smallEventDB.holds
              ++ [holdSerializerCreate { id := 0, totalSeats := 2 } 2 0 10 1 7] },
          HoldResult.created 1) :=
  (c9_schedule_failure_not_fatal smallEventDB 0 0 2 10 60 1 7 { id := 0, totalSeats := 2 }
    (by rfl) (by decide) (by decide)).1

/-- C10: `EventMetricsView.get` recomputes the event's counters from
the authoritative Hold/Booking rows at read time: whatever stale
metrics rows are stored, the returned counters equal the fresh
recomputation of hold count, booking count, expiry count and the summed
quantities. -/
theorem c10_metrics_recomputed_fresh (db : DB) (eid : Nat) (ev : Event)
    (stored : List MetricsRow) (hev : findEvent db eid = some ev) :
    (eventMetricsView_get { db with metrics := stored } eid).2
      = some { eventId := ev.id
               total_holds := countHolds db ev.id
               total_bookings := countBookings db ev.id
               total_expiries := countExpiries db ev.id
               total_held_seats := held_seats db ev.id
               total_booked_seats := booked_seats db ev.id
               total_expired_seats := expired_seats db ev.id } := by
  have hev2 : findEvent { db with metrics := stored } eid = some ev := hev
  unfold eventMetricsView_get
  rw [hev2]
  rfl

/-- Witness for C10: with an absurd stale metrics row stored, the view
still returns the fresh counters of the one-hold sample state. -/
theorem c10_metrics_recomputed_fresh_witness :
    (eventMetricsView_get
        { raceDB with
            metrics := [{ eventId := 0, total_holds := 99, total_bookings := 99,
                          total_expiries := 99, total_held_seats := 99,
                          total_booked_seats := 99, total_expired_seats := 99 }] } 0).2
      = some { eventId := 0, total_holds := 1, total_bookings := 0, total_expiries := 0,
               total_held_seats := 2, total_booked_seats := 0, total_expired_seats := 0 } :=
  (c10_metrics_recomputed_fresh raceDB 0 sampleEvent
      [{ eventId := 0, total_holds := 99, total_bookings := 99, total_expiries := 99,
         total_held_seats := 99, total_booked_seats := 99, total_expired_seats := 99 }]
      (by decide)).trans (by decide)

/-- C3: starting from any well-formed committed state, every state
reachable by a sequence of CreateHold, ConfirmBooking and
expiry-processing operations keeps, for every event, the sum of qty
over ACTIVE holds plus the sum of qty over BOOKED holds at or below
`total_seats`. -/
theorem c3_no_oversell (db : DB) (ops : List Op) (hwf : WF db) (ev : Event)
    (hev : ev ∈ (run db ops).events) :
    statusQty (run db ops) ev.id Status.ACTIVE + statusQty (run db ops) ev.id Status.BOOKED
      ≤ ev.totalSeats :=
  (WF_run hwf ops).noOversell ev hev

/-- Witness for C3: from the one-hold sample state, creating a second
hold, booking the first and then processing its expiry never pushes the
ACTIVE+BOOKED total of the ten-seat event above ten. -/
theorem c3_no_oversell_witness :
    statusQty (run raceDB [Op.createHold 0 0 3 10 60 5 8 false, Op.confirmBooking 5 1 7 42,
        Op.expireHold 11 1]) 0 Status.ACTIVE
      + statusQty (run raceDB [Op.createHold 0 0 3 10 60 5 8 false, Op.confirmBooking 5 1 7 42,
        Op.expireHold 11 1]) 0 Status.BOOKED
      ≤ 10 :=
  c3_no_oversell raceDB
    [Op.createHold 0 0 3 10 60 5 8 false, Op.confirmBooking 5 1 7 42, Op.expireHold 11 1]
    ⟨by decide, by decide, by decide, by decide, by decide⟩ sampleEvent (by decide)

end Boxoffice